import Mathlib

/-!
Shallow embedding of the expirio-extended-module REST handlers.

Each Next.js route handler (entities, services, payees, subscriptions,
EditUser, DeleteUser) is translated to a pure Lean function over an explicit
relational store `Db`.  The external collaborators are modelled explicitly:

* the JWT library's `jwt.verify` is a parameter `verify : String → Option Claims`
  (`none` models a thrown verification error, which every handler's catch-all
  converts into a 500 response);
* `db.execute` over the parameterized SQL statements is given list semantics
  (`SELECT ... LIMIT 1` is `List.find?`, `UPDATE ... WHERE` is `List.map`
  guarded by the WHERE predicate, `DELETE ... WHERE` is `List.filter`,
  `INSERT` appends a row with the fresh `nextId`);
* JavaScript truthiness tests on request-body fields are modelled by
  `truthyS` / `truthyN` over `Option`-valued fields (`none` = absent field,
  `some ""` / `some 0` = present but falsy);
* the JavaScript string operations used by the handlers
  (`startsWith('Bearer ')`, `split(' ')[1]`, `toLowerCase()`) are implemented
  character-by-character so that they evaluate on concrete inputs.
-/

namespace Expirio

/-! ### JavaScript string primitives -/

/-- Boolean character-list version of list prefixing, used to model
`String.prototype.startsWith`. -/
def charsStartWith : List Char → List Char → Bool
  | [], _ => true
  | _ :: _, [] => false
  | a :: as, b :: bs => a == b && charsStartWith as bs

/-- Model of `s.startsWith('Bearer ')` from the handlers. -/
def hasBearerScheme (s : String) : Bool :=
  charsStartWith "Bearer ".data s.data

/-- Accumulator-passing worker for `jsSplitSpace`. -/
def splitSpaceAux : List Char → List Char → List String
  | [], acc => [String.mk acc.reverse]
  | c :: cs, acc =>
    if c == ' ' then String.mk acc.reverse :: splitSpaceAux cs []
    else splitSpaceAux cs (c :: acc)

/-- Model of JavaScript `s.split(' ')`: splits at every single space
character, keeping empty segments, exactly like `String.prototype.split`
with a one-character separator. -/
def jsSplitSpace (s : String) : List String :=
  splitSpaceAux s.data []

/-- ASCII lowercasing of one character (the only characters the category
validation ever distinguishes are ASCII letters). -/
def lowerChar (c : Char) : Char :=
  if 65 ≤ c.toNat && c.toNat ≤ 90 then Char.ofNat (c.toNat + 32) else c

/-- Model of JavaScript `s.toLowerCase()`. -/
def jsToLower (s : String) : String :=
  String.mk (s.data.map lowerChar)

/-! ### JavaScript truthiness on optional body fields -/

/-- Truthiness of an optional string-valued body field: absent (`none`) and
the empty string are falsy, everything else truthy. -/
def truthyS : Option String → Bool
  | none => false
  | some s => !(s == "")

/-- Truthiness of an optional numeric body field: absent (`none`) and `0`
are falsy. -/
def truthyN : Option Nat → Bool
  | none => false
  | some n => !(n == 0)

/-! ### Data model (rows of the five tables) -/

/-- Claims object produced by a successful `jwt.verify`: the resource
handlers read `decoded.user_id`, EditUser/DeleteUser read `decoded.id`. -/
structure Claims where
  user_id : Nat
  id : Nat
deriving DecidableEq

/-- Row of the `users` table (`sr` is its primary key).  The updatable
columns are nullable because EditUser writes the raw body values. -/
structure UserRow where
  sr : Nat
  username : Option String
  name : Option String
  email : Option String
  phone : Option String
  password : Option String
deriving DecidableEq

/-- Row of the `entities` table. -/
structure EntityRow where
  id : Nat
  user_id : Nat
  entity_name : String
  entity_desc : String
  entity_short_desc : String
  category : String
deriving DecidableEq

/-- Row of the `services` table. -/
structure ServiceRow where
  id : Nat
  user_id : Nat
  entity_id : Nat
  service_name : String
  service_desc : String
  min_duration : String
  amount : String
  category : String
deriving DecidableEq

/-- Row of the `payees` table.  The columns written by the payees PUT
handler are nullable because that handler stores whatever the body holds. -/
structure PayeeRow where
  id : Nat
  user_id : Nat
  entity_id : Option Nat
  service_id : Option Nat
  payee_name : Option String
  phone : Option String
  email : Option String
  amount : Option String
  category : Option String
deriving DecidableEq

/-- Row of the `subscriptions` table, nullable like `PayeeRow`. -/
structure SubscriptionRow where
  id : Nat
  user_id : Nat
  entity_id : Option Nat
  service_id : Option Nat
  payee_id : Option Nat
  startDate : Option String
  endDate : Option String
  amount : Option String
  paymentDate : Option String
  category : Option String
deriving DecidableEq

/-- The relational store, together with the auto-increment counter used to
assign `insertId`s. -/
structure Db where
  nextId : Nat
  users : List UserRow
  entities : List EntityRow
  services : List ServiceRow
  payees : List PayeeRow
  subscriptions : List SubscriptionRow
deriving DecidableEq

/-- Outcome of a handler call: HTTP status of the JSON response plus the
store as the handler leaves it. -/
structure HandlerResult where
  status : Nat
  db : Db
deriving DecidableEq

/-- Outcome of a List (GET) handler: HTTP status plus the joined rows the
response carries (entity row paired with the joined user row). -/
structure EntitiesGetResult where
  status : Nat
  rows : List (EntityRow × UserRow)
deriving DecidableEq

/-! ### Shared authorization plumbing -/

/-- Bearer-scheme header test shared by all resource handlers:
`!authHeader || !authHeader.startsWith('Bearer ')` negated. -/
def bearerCheck : Option String → Bool
  | none => false
  | some s => hasBearerScheme s

/-- Token extraction `authHeader.split(' ')[1]` performed by the resource
handlers after `bearerCheck` has passed. -/
def bearerToken (h : Option String) : String :=
  ((jsSplitSpace (h.getD "")).get? 1).getD ""

/-- Token extraction `request.headers.get('Authorization')?.split(' ')[1]`
of EditUser/DeleteUser: no scheme check, just the second space-separated
word (or nothing). -/
def looseToken (h : Option String) : Option String :=
  h.bind (fun s => (jsSplitSpace s).get? 1)

/-! ### SQL lookup helpers (global name resolution, `LIMIT 1` = first row) -/

/-- Model of `SELECT id FROM entities WHERE entity_name = ?` (not scoped by
owner). -/
def findEntityByName (db : Db) (n : String) : Option EntityRow :=
  db.entities.find? (fun e => e.entity_name == n)

/-- Model of `SELECT id FROM services WHERE service_name = ?` (not scoped by
owner). -/
def findServiceByName (db : Db) (n : String) : Option ServiceRow :=
  db.services.find? (fun s => s.service_name == n)

/-- Model of `SELECT id FROM payees WHERE payee_name = ?` (not scoped by
owner; a SQL NULL name never matches). -/
def findPayeeByName (db : Db) (n : String) : Option PayeeRow :=
  db.payees.find? (fun p => p.payee_name == some n)

/-- Optional name resolution of the payees/subscriptions PUT handlers:
`none` body field leaves the id NULL, a truthy field must resolve or the
handler answers 404 (modelled as `Except.error ()`). -/
def resolveOptName (lookup : String → Option Nat) (n : Option String) :
    Except Unit (Option Nat) :=
  if truthyS n then
    match lookup (n.getD "") with
    | none => Except.error ()
    | some i => Except.ok (some i)
  else Except.ok none

/-! ### Entities handlers (part_003 lines 20-302; part_000 is identical
except for its DELETE, embedded below as `Entities.delAlt`). -/

/-- Body of `POST /Entities`. -/
structure EntityPostBody where
  entity_name : Option String
  entity_desc : Option String
  entity_short_desc : Option String
  category : Option String
deriving DecidableEq

/-- Body of `PUT /Entities`. -/
structure EntityPutBody where
  id : Option Nat
  entity_name : Option String
  entity_desc : Option String
  entity_short_desc : Option String
  category : Option String
deriving DecidableEq

/-- Body of `DELETE /Entities`. -/
structure EntityDeleteBody where
  entity_id : Option Nat
deriving DecidableEq

/-- GET /Entities: bearer check, verify, join `entities × users` on the
token's user id, 404 on empty, 200 with the rows otherwise. -/
def Entities.get (verify : String → Option Claims) (h : Option String)
    (db : Db) : EntitiesGetResult :=
  if bearerCheck h then
    match verify (bearerToken h) with
    | none => ⟨500, []⟩
    | some decoded =>
      let rows := (db.entities.filter (fun e => e.user_id == decoded.user_id)).filterMap
        (fun e => (db.users.find? (fun u => u.sr == decoded.user_id)).map (fun u => (e, u)))
      if rows.length == 0 then ⟨404, []⟩
      else ⟨200, rows⟩
  else ⟨401, []⟩

/-- POST /Entities: bearer check, verify, required-field check, category
check, insert with the token's user id and the lowercased category. -/
def Entities.post (verify : String → Option Claims) (h : Option String)
    (body : EntityPostBody) (db : Db) : HandlerResult :=
  if bearerCheck h then
    match verify (bearerToken h) with
    | none => ⟨500, db⟩
    | some decoded =>
      if truthyS body.entity_name && truthyS body.entity_desc &&
         truthyS body.entity_short_desc && truthyS body.category then
        let cat := jsToLower (body.category.getD "")
        if cat == "income" || cat == "expense" then
          let row : EntityRow :=
            { id := db.nextId, user_id := decoded.user_id,
              entity_name := body.entity_name.getD "",
              entity_desc := body.entity_desc.getD "",
              entity_short_desc := body.entity_short_desc.getD "",
              category := cat }
          ⟨201, { db with nextId := db.nextId + 1, entities := db.entities ++ [row] }⟩
        else ⟨400, db⟩
      else ⟨400, db⟩
  else ⟨401, db⟩

/-- PUT /Entities: bearer check, verify, required-field check, category
check when supplied, ownership lookup (`WHERE id = ? AND user_id = ?`),
then an UPDATE whose SET values fall back (`||`) to the found row. -/
def Entities.put (verify : String → Option Claims) (h : Option String)
    (body : EntityPutBody) (db : Db) : HandlerResult :=
  if bearerCheck h then
    match verify (bearerToken h) with
    | none => ⟨500, db⟩
    | some decoded =>
      let user_id := decoded.user_id
      if truthyN body.id && truthyS body.entity_name &&
         truthyS body.entity_desc && truthyS body.entity_short_desc then
        if truthyS body.category &&
           !(jsToLower (body.category.getD "") == "income" ||
             jsToLower (body.category.getD "") == "expense") then
          ⟨400, db⟩
        else
          match db.entities.find? (fun e => e.id == body.id.getD 0 && e.user_id == user_id) with
          | none => ⟨404, db⟩
          | some old =>
            ⟨200, { db with entities := db.entities.map (fun e =>
              if e.id == body.id.getD 0 && e.user_id == user_id then
                { e with
                  entity_name := if truthyS body.entity_name then body.entity_name.getD "" else old.entity_name,
                  entity_desc := if truthyS body.entity_desc then body.entity_desc.getD "" else old.entity_desc,
                  entity_short_desc := if truthyS body.entity_short_desc then body.entity_short_desc.getD "" else old.entity_short_desc,
                  category := if truthyS body.category then jsToLower (body.category.getD "") else old.category }
              else e) }⟩
      else ⟨400, db⟩
  else ⟨401, db⟩

/-- DELETE /Entities (part_003 variant): ownership lookup, then manual
cascade `DELETE FROM services/payees/subscriptions WHERE entity_id = ?`
(not scoped by owner) followed by the owner-scoped entity delete. -/
def Entities.del (verify : String → Option Claims) (h : Option String)
    (body : EntityDeleteBody) (db : Db) : HandlerResult :=
  if bearerCheck h then
    match verify (bearerToken h) with
    | none => ⟨500, db⟩
    | some decoded =>
      let user_id := decoded.user_id
      if truthyN body.entity_id then
        let eid := body.entity_id.getD 0
        match db.entities.find? (fun e => e.id == eid && e.user_id == user_id) with
        | none => ⟨404, db⟩
        | some _ =>
          ⟨200, { db with
            services := db.services.filter (fun s => !(s.entity_id == eid)),
            payees := db.payees.filter (fun p => !(p.entity_id == some eid)),
            subscriptions := db.subscriptions.filter (fun s => !(s.entity_id == some eid)),
            entities := db.entities.filter (fun e => !(e.id == eid && e.user_id == user_id)) }⟩
      else ⟨400, db⟩
  else ⟨401, db⟩

/-- DELETE /Entities (part_000 variant): ownership lookup, then a single
`DELETE FROM entities WHERE id = ?`, leaving dependent rows to a
database-level `ON DELETE CASCADE` outside this code. -/
def Entities.delAlt (verify : String → Option Claims) (h : Option String)
    (body : EntityDeleteBody) (db : Db) : HandlerResult :=
  if bearerCheck h then
    match verify (bearerToken h) with
    | none => ⟨500, db⟩
    | some decoded =>
      let user_id := decoded.user_id
      if truthyN body.entity_id then
        let eid := body.entity_id.getD 0
        match db.entities.find? (fun e => e.id == eid && e.user_id == user_id) with
        | none => ⟨404, db⟩
        | some _ =>
          ⟨200, { db with entities := db.entities.filter (fun e => !(e.id == eid)) }⟩
      else ⟨400, db⟩
  else ⟨401, db⟩

/-! ### Services handlers (part_003 lines 323-645; part_002 is identical
except for its DELETE, embedded below as `Services.delAlt`). -/

/-- Body of `POST /Services`. -/
structure ServicePostBody where
  service_name : Option String
  service_desc : Option String
  entity_name : Option String
  min_duration : Option String
  amount : Option String
  category : Option String
deriving DecidableEq

/-- Body of `PUT /Services`. -/
structure ServicePutBody where
  id : Option Nat
  entity_name : Option String
  service_name : Option String
  service_desc : Option String
  min_duration : Option String
  amount : Option String
  category : Option String
deriving DecidableEq

/-- Body of `DELETE /Services` (and of the payees/subscriptions DELETEs). -/
structure IdBody where
  id : Option Nat
deriving DecidableEq

/-- POST /Services: required-field and category checks, global
`entity_name` resolution (404 when absent), insert with the token's user
id and the lowercased category. -/
def Services.post (verify : String → Option Claims) (h : Option String)
    (body : ServicePostBody) (db : Db) : HandlerResult :=
  if bearerCheck h then
    match verify (bearerToken h) with
    | none => ⟨500, db⟩
    | some decoded =>
      if truthyS body.service_name && truthyS body.service_desc &&
         truthyS body.min_duration && truthyS body.amount &&
         truthyS body.category && truthyS body.entity_name then
        let cat := jsToLower (body.category.getD "")
        if cat == "income" || cat == "expense" then
          match findEntityByName db (body.entity_name.getD "") with
          | none => ⟨404, db⟩
          | some ent =>
            let row : ServiceRow :=
              { id := db.nextId, user_id := decoded.user_id, entity_id := ent.id,
                service_name := body.service_name.getD "",
                service_desc := body.service_desc.getD "",
                min_duration := body.min_duration.getD "",
                amount := body.amount.getD "",
                category := cat }
            ⟨201, { db with nextId := db.nextId + 1, services := db.services ++ [row] }⟩
        else ⟨400, db⟩
      else ⟨400, db⟩
  else ⟨401, db⟩

/-- PUT /Services: `id` and `entity_name` required, category check when
supplied, global entity resolution, lookup scoped by
`id AND user_id AND entity_id`, then an UPDATE with `||` fallbacks. -/
def Services.put (verify : String → Option Claims) (h : Option String)
    (body : ServicePutBody) (db : Db) : HandlerResult :=
  if bearerCheck h then
    match verify (bearerToken h) with
    | none => ⟨500, db⟩
    | some decoded =>
      let user_id := decoded.user_id
      if truthyN body.id && truthyS body.entity_name then
        if truthyS body.category &&
           !(jsToLower (body.category.getD "") == "income" ||
             jsToLower (body.category.getD "") == "expense") then
          ⟨400, db⟩
        else
          match findEntityByName db (body.entity_name.getD "") with
          | none => ⟨404, db⟩
          | some ent =>
            match db.services.find? (fun s =>
                s.id == body.id.getD 0 && s.user_id == user_id && s.entity_id == ent.id) with
            | none => ⟨404, db⟩
            | some old =>
              ⟨200, { db with services := db.services.map (fun s =>
                if s.id == body.id.getD 0 && s.user_id == user_id && s.entity_id == ent.id then
                  { s with
                    service_name := if truthyS body.service_name then body.service_name.getD "" else old.service_name,
                    service_desc := if truthyS body.service_desc then body.service_desc.getD "" else old.service_desc,
                    min_duration := if truthyS body.min_duration then body.min_duration.getD "" else old.min_duration,
                    amount := if truthyS body.amount then body.amount.getD "" else old.amount,
                    category := if truthyS body.category then jsToLower (body.category.getD "") else old.category }
                else s) }⟩
      else ⟨400, db⟩
  else ⟨401, db⟩

/-- DELETE /Services (part_003 variant): ownership lookup, manual cascade
on payees and subscriptions by `service_id` (not scoped by owner), then the
owner-scoped service delete. -/
def Services.del (verify : String → Option Claims) (h : Option String)
    (body : IdBody) (db : Db) : HandlerResult :=
  if bearerCheck h then
    match verify (bearerToken h) with
    | none => ⟨500, db⟩
    | some decoded =>
      let userId := decoded.user_id
      if truthyN body.id then
        let sid := body.id.getD 0
        match db.services.find? (fun s => s.id == sid && s.user_id == userId) with
        | none => ⟨404, db⟩
        | some _ =>
          ⟨200, { db with
            payees := db.payees.filter (fun p => !(p.service_id == some sid)),
            subscriptions := db.subscriptions.filter (fun s => !(s.service_id == some sid)),
            services := db.services.filter (fun s => !(s.id == sid && s.user_id == userId)) }⟩
      else ⟨400, db⟩
  else ⟨401, db⟩

/-- DELETE /Services (part_002 variant): ownership lookup, then a single
`DELETE FROM services WHERE id = ?`, leaving dependents to a database-level
cascade outside this code. -/
def Services.delAlt (verify : String → Option Claims) (h : Option String)
    (body : IdBody) (db : Db) : HandlerResult :=
  if bearerCheck h then
    match verify (bearerToken h) with
    | none => ⟨500, db⟩
    | some decoded =>
      let userId := decoded.user_id
      if truthyN body.id then
        let sid := body.id.getD 0
        match db.services.find? (fun s => s.id == sid && s.user_id == userId) with
        | none => ⟨404, db⟩
        | some _ =>
          ⟨200, { db with services := db.services.filter (fun s => !(s.id == sid)) }⟩
      else ⟨400, db⟩
  else ⟨401, db⟩

/-! ### Payees handlers (part_003 lines 666-881; the payees copy inside
src/src/app/api/EditUser/route.js is textually identical). -/

/-- Body of `POST /Payees`. -/
structure PayeePostBody where
  entity_name : Option String
  service_name : Option String
  payee_name : Option String
  phone : Option String
  email : Option String
  amount : Option String
  category : Option String
deriving DecidableEq

/-- Body of `PUT /Payees`. -/
structure PayeePutBody where
  id : Option Nat
  user_id : Option Nat
  entity_name : Option String
  service_name : Option String
  payee_name : Option String
  phone : Option String
  email : Option String
  amount : Option String
  category : Option String
deriving DecidableEq

/-- POST /Payees: all seven fields required, global entity and service name
resolution (404 when either is absent), then an insert that stores the
category verbatim — no income/expense validation and no lowercasing. -/
def Payees.post (verify : String → Option Claims) (h : Option String)
    (body : PayeePostBody) (db : Db) : HandlerResult :=
  if bearerCheck h then
    match verify (bearerToken h) with
    | none => ⟨500, db⟩
    | some decoded =>
      let user_id := decoded.user_id
      if truthyS body.entity_name && truthyS body.service_name &&
         truthyS body.payee_name && truthyS body.phone && truthyS body.email &&
         truthyS body.amount && truthyS body.category then
        match findEntityByName db (body.entity_name.getD ""),
              findServiceByName db (body.service_name.getD "") with
        | some ent, some svc =>
          let row : PayeeRow :=
            { id := db.nextId, user_id := user_id,
              entity_id := some ent.id, service_id := some svc.id,
              payee_name := body.payee_name, phone := body.phone,
              email := body.email, amount := body.amount,
              category := body.category }
          ⟨201, { db with nextId := db.nextId + 1, payees := db.payees ++ [row] }⟩
        | _, _ => ⟨404, db⟩
      else ⟨400, db⟩
  else ⟨401, db⟩

/-- SET clause of the payees PUT: every column is overwritten with the body
value (`user_id` with `user_id || token user id`, the name columns with the
resolved ids or NULL), `WHERE id = ?` with no ownership restriction. -/
def payeeUpdate (db : Db) (body : PayeePutBody) (ruid : Nat)
    (eid sid : Option Nat) : HandlerResult :=
  ⟨200, { db with payees := db.payees.map (fun p =>
    if p.id == body.id.getD 0 then
      { p with
        user_id := ruid, entity_id := eid, service_id := sid,
        payee_name := body.payee_name, phone := body.phone,
        email := body.email, amount := body.amount, category := body.category }
    else p) }⟩

/-- PUT /Payees: only `id` is required; `user_id` comes from the body when
truthy, else from the token; supplied names must resolve (404 otherwise);
then `payeeUpdate` runs with no ownership or existence check. -/
def Payees.put (verify : String → Option Claims) (h : Option String)
    (body : PayeePutBody) (db : Db) : HandlerResult :=
  if bearerCheck h then
    match verify (bearerToken h) with
    | none => ⟨500, db⟩
    | some decoded =>
      let userId := decoded.user_id
      if truthyN body.id then
        let ruid := if truthyN body.user_id then body.user_id.getD 0 else userId
        match resolveOptName (fun n => (findEntityByName db n).map (·.id)) body.entity_name with
        | Except.error _ => ⟨404, db⟩
        | Except.ok eid =>
          match resolveOptName (fun n => (findServiceByName db n).map (·.id)) body.service_name with
          | Except.error _ => ⟨404, db⟩
          | Except.ok sid => payeeUpdate db body ruid eid sid
      else ⟨400, db⟩
  else ⟨401, db⟩

/-- DELETE /Payees: ownership lookup, cascade delete of subscriptions by
`payee_id` (not scoped by owner), then the owner-scoped payee delete. -/
def Payees.del (verify : String → Option Claims) (h : Option String)
    (body : IdBody) (db : Db) : HandlerResult :=
  if bearerCheck h then
    match verify (bearerToken h) with
    | none => ⟨500, db⟩
    | some decoded =>
      let userId := decoded.user_id
      if truthyN body.id then
        let pid := body.id.getD 0
        match db.payees.find? (fun p => p.id == pid && p.user_id == userId) with
        | none => ⟨404, db⟩
        | some _ =>
          ⟨200, { db with
            subscriptions := db.subscriptions.filter (fun s => !(s.payee_id == some pid)),
            payees := db.payees.filter (fun p => !(p.id == pid && p.user_id == userId)) }⟩
      else ⟨400, db⟩
  else ⟨401, db⟩

/-! ### Subscriptions handlers (part_003 lines 903-1125). -/

/-- Body of `POST /Subscriptions`. -/
structure SubscriptionPostBody where
  entity_name : Option String
  service_name : Option String
  payee_name : Option String
  startDate : Option String
  endDate : Option String
  amount : Option String
  paymentDate : Option String
  category : Option String
deriving DecidableEq

/-- Body of `PUT /Subscriptions`. -/
structure SubscriptionPutBody where
  id : Option Nat
  user_id : Option Nat
  entity_name : Option String
  service_name : Option String
  payee_name : Option String
  startDate : Option String
  endDate : Option String
  amount : Option String
  paymentDate : Option String
  category : Option String
deriving DecidableEq

/-- POST /Subscriptions: all eight fields required, global entity, service
and payee name resolution (404 when any is absent), then an insert that
stores the category verbatim — no income/expense validation. -/
def Subscriptions.post (verify : String → Option Claims) (h : Option String)
    (body : SubscriptionPostBody) (db : Db) : HandlerResult :=
  if bearerCheck h then
    match verify (bearerToken h) with
    | none => ⟨500, db⟩
    | some decoded =>
      let user_id := decoded.user_id
      if truthyS body.entity_name && truthyS body.service_name &&
         truthyS body.payee_name && truthyS body.startDate && truthyS body.endDate &&
         truthyS body.amount && truthyS body.paymentDate && truthyS body.category then
        match findEntityByName db (body.entity_name.getD ""),
              findServiceByName db (body.service_name.getD ""),
              findPayeeByName db (body.payee_name.getD "") with
        | some ent, some svc, some pay =>
          let row : SubscriptionRow :=
            { id := db.nextId, user_id := user_id,
              entity_id := some ent.id, service_id := some svc.id, payee_id := some pay.id,
              startDate := body.startDate, endDate := body.endDate,
              amount := body.amount, paymentDate := body.paymentDate,
              category := body.category }
          ⟨201, { db with nextId := db.nextId + 1, subscriptions := db.subscriptions ++ [row] }⟩
        | _, _, _ => ⟨404, db⟩
      else ⟨400, db⟩
  else ⟨401, db⟩

/-- SET clause of the subscriptions PUT, mirroring `payeeUpdate`:
every column overwritten, `WHERE id = ?` with no ownership restriction. -/
def subscriptionUpdate (db : Db) (body : SubscriptionPutBody) (ruid : Nat)
    (eid sid pid : Option Nat) : HandlerResult :=
  ⟨200, { db with subscriptions := db.subscriptions.map (fun s =>
    if s.id == body.id.getD 0 then
      { s with
        user_id := ruid, entity_id := eid, service_id := sid, payee_id := pid,
        startDate := body.startDate, endDate := body.endDate,
        amount := body.amount, paymentDate := body.paymentDate,
        category := body.category }
    else s) }⟩

/-- PUT /Subscriptions: only `id` required; `user_id` from the body when
truthy, else from the token; supplied names must resolve; then
`subscriptionUpdate` runs with no ownership or existence check. -/
def Subscriptions.put (verify : String → Option Claims) (h : Option String)
    (body : SubscriptionPutBody) (db : Db) : HandlerResult :=
  if bearerCheck h then
    match verify (bearerToken h) with
    | none => ⟨500, db⟩
    | some decoded =>
      if truthyN body.id then
        let ruid := if truthyN body.user_id then body.user_id.getD 0 else decoded.user_id
        match resolveOptName (fun n => (findEntityByName db n).map (·.id)) body.entity_name with
        | Except.error _ => ⟨404, db⟩
        | Except.ok eid =>
          match resolveOptName (fun n => (findServiceByName db n).map (·.id)) body.service_name with
          | Except.error _ => ⟨404, db⟩
          | Except.ok sid =>
            match resolveOptName (fun n => (findPayeeByName db n).map (·.id)) body.payee_name with
            | Except.error _ => ⟨404, db⟩
            | Except.ok pid => subscriptionUpdate db body ruid eid sid pid
      else ⟨400, db⟩
  else ⟨401, db⟩

/-- DELETE /Subscriptions: ownership lookup, then the owner-scoped delete
of the single subscription row (no cascade needed). -/
def Subscriptions.del (verify : String → Option Claims) (h : Option String)
    (body : IdBody) (db : Db) : HandlerResult :=
  if bearerCheck h then
    match verify (bearerToken h) with
    | none => ⟨500, db⟩
    | some decoded =>
      let userId := decoded.user_id
      if truthyN body.id then
        let sid := body.id.getD 0
        match db.subscriptions.find? (fun s => s.id == sid && s.user_id == userId) with
        | none => ⟨404, db⟩
        | some _ =>
          ⟨200, { db with
            subscriptions := db.subscriptions.filter (fun s => !(s.id == sid && s.user_id == userId)) }⟩
      else ⟨400, db⟩
  else ⟨401, db⟩

/-! ### EditUser / DeleteUser handlers (src/src/app/api/EditUser/route.js
lines 18-56, src/unnamed/part_001 lines 18-44).  Both extract the token as
`header?.split(' ')[1]` with no `Bearer` scheme check and read the subject
from `decoded.id`. -/

/-- Body of `PUT /EditUser`. -/
structure EditUserBody where
  name : Option String
  email : Option String
  phone : Option String
  username : Option String
  password : Option String
deriving DecidableEq

/-- SQL equality between a nullable column and a nullable parameter: a NULL
on either side never matches. -/
def sqlEqOS : Option String → Option String → Bool
  | some a, some b => a == b
  | _, _ => false

/-- PUT /EditUser: loose token extraction, verify, username-conflict check
(`WHERE username = ? AND sr != ?`, 409 on a hit), then an UPDATE of all five
columns `WHERE sr = ?`; 404 when no row matched. -/
def EditUser.put (verify : String → Option Claims) (h : Option String)
    (body : EditUserBody) (db : Db) : HandlerResult :=
  match looseToken h with
  | none => ⟨401, db⟩
  | some t =>
    if t == "" then ⟨401, db⟩
    else
      match verify t with
      | none => ⟨500, db⟩
      | some decoded =>
        let userId := decoded.id
        let conflict := db.users.filter (fun u => sqlEqOS u.username body.username && !(u.sr == userId))
        if 0 < conflict.length then ⟨409, db⟩
        else
          let affected := (db.users.filter (fun u => u.sr == userId)).length
          if affected == 0 then ⟨404, db⟩
          else
            ⟨200, { db with users := db.users.map (fun u =>
              if u.sr == userId then
                { u with
                  name := body.name, email := body.email, phone := body.phone,
                  username := body.username, password := body.password }
              else u) }⟩

/-- DELETE /DeleteUser: loose token extraction, verify, then
`DELETE FROM users WHERE sr = ?`; 404 when no row matched. -/
def DeleteUser.del (verify : String → Option Claims) (h : Option String)
    (db : Db) : HandlerResult :=
  match looseToken h with
  | none => ⟨401, db⟩
  | some t =>
    if t == "" then ⟨401, db⟩
    else
      match verify t with
      | none => ⟨500, db⟩
      | some decoded =>
        let userId := decoded.id
        let affected := (db.users.filter (fun u => u.sr == userId)).length
        if affected == 0 then ⟨404, db⟩
        else ⟨200, { db with users := db.users.filter (fun u => !(u.sr == userId)) }⟩

/-! ### Concrete fixtures used by witnesses and counterexamples -/

/-- Verification oracle accepting exactly the token `"tok"` for user 7
(claims carry both `user_id` and `id` as 7). -/
def verifyW : String → Option Claims := fun s => if s == "tok" then some ⟨7, 7⟩ else none

/-- Well-formed bearer header for `verifyW`. -/
def hdrW : Option String := some "Bearer tok"

/-- Small populated store: user 7 owns entity 1, service 2, payee 3 and
subscription 4. -/
def dbW : Db :=
  { nextId := 10,
    users := [⟨7, some "alice", some "A", some "a@x", some "1", some "pw"⟩],
    entities := [⟨1, 7, "Acme", "d", "s", "income"⟩],
    services := [⟨2, 7, 1, "Cloud", "d", "12", "99", "expense"⟩],
    payees := [⟨3, 7, some 1, some 2, some "Bob", some "p", some "e", some "5", some "expense"⟩],
    subscriptions := [⟨4, 7, some 1, some 2, some 3, some "s", some "e", some "5", some "p", some "expense"⟩] }

/-- Store whose only payee (id 1) belongs to user 2, not to the
authenticated user 7 of `verifyW`. -/
def dbOther : Db :=
  { nextId := 10,
    users := [⟨7, some "alice", some "A", some "a@x", some "1", some "pw"⟩,
              ⟨2, some "eve", some "E", some "e@x", some "2", some "pw"⟩],
    entities := [],
    services := [],
    payees := [⟨1, 2, some 9, some 9, some "Mallory", some "p", some "e", some "5", some "expense"⟩],
    subscriptions := [] }

/-! ### C1 -/

/-- C1 counterexample: a request whose Authorization header carries the
literal `Bearer` scheme but whose token fails verification is answered with
status 500 by the entities GET handler, not with the 401 the claim
requires. -/
theorem C1_counterexample :
    (Entities.get verifyW (some "Bearer bad") dbW).status = 500 ∧
    ¬((Entities.get verifyW (some "Bearer bad") dbW).status = 401) := by
  decide

/-- C1 (amended): a request whose Authorization header is absent or does not
start with `Bearer ` gets 401 from every entities/services/payees/
subscriptions handler; when the header passes the scheme check but the token
fails verification, the catch-all answers 500 (not 401).  EditUser and
DeleteUser answer 401 exactly when the header has no non-empty second
space-separated word, and 500 on a failed verification. -/
theorem C1_amended (verify : String → Option Claims) (h : Option String) (t : String)
    (db : Db) (b1 : EntityPostBody) (b2 : EntityPutBody) (b3 : EntityDeleteBody)
    (b4 : ServicePostBody) (b5 : ServicePutBody) (b6 : IdBody)
    (b7 : PayeePostBody) (b8 : PayeePutBody) (b9 : SubscriptionPostBody)
    (b10 : SubscriptionPutBody) (b11 : EditUserBody) :
    (bearerCheck h = false →
      (Entities.get verify h db).status = 401 ∧
      (Entities.post verify h b1 db).status = 401 ∧
      (Entities.put verify h b2 db).status = 401 ∧
      (Entities.del verify h b3 db).status = 401 ∧
      (Entities.delAlt verify h b3 db).status = 401 ∧
      (Services.post verify h b4 db).status = 401 ∧
      (Services.put verify h b5 db).status = 401 ∧
      (Services.del verify h b6 db).status = 401 ∧
      (Services.delAlt verify h b6 db).status = 401 ∧
      (Payees.post verify h b7 db).status = 401 ∧
      (Payees.put verify h b8 db).status = 401 ∧
      (Payees.del verify h b6 db).status = 401 ∧
      (Subscriptions.post verify h b9 db).status = 401 ∧
      (Subscriptions.put verify h b10 db).status = 401 ∧
      (Subscriptions.del verify h b6 db).status = 401) ∧
    (bearerCheck h = true → verify (bearerToken h) = none →
      (Entities.get verify h db).status = 500 ∧
      (Entities.post verify h b1 db).status = 500 ∧
      (Entities.put verify h b2 db).status = 500 ∧
      (Entities.del verify h b3 db).status = 500 ∧
      (Entities.delAlt verify h b3 db).status = 500 ∧
      (Services.post verify h b4 db).status = 500 ∧
      (Services.put verify h b5 db).status = 500 ∧
      (Services.del verify h b6 db).status = 500 ∧
      (Services.delAlt verify h b6 db).status = 500 ∧
      (Payees.post verify h b7 db).status = 500 ∧
      (Payees.put verify h b8 db).status = 500 ∧
      (Payees.del verify h b6 db).status = 500 ∧
      (Subscriptions.post verify h b9 db).status = 500 ∧
      (Subscriptions.put verify h b10 db).status = 500 ∧
      (Subscriptions.del verify h b6 db).status = 500) ∧
    (looseToken h = none →
      (EditUser.put verify h b11 db).status = 401 ∧
      (DeleteUser.del verify h db).status = 401) ∧
    (looseToken h = some "" →
      (EditUser.put verify h b11 db).status = 401 ∧
      (DeleteUser.del verify h db).status = 401) ∧
    (looseToken h = some t → ¬(t = "") → verify t = none →
      (EditUser.put verify h b11 db).status = 500 ∧
      (DeleteUser.del verify h db).status = 500) := by
  refine ⟨?_, ?_, ?_, ?_, ?_⟩
  · intro hbc
    simp [Entities.get, Entities.post, Entities.put, Entities.del, Entities.delAlt,
      Services.post, Services.put, Services.del, Services.delAlt,
      Payees.post, Payees.put, Payees.del,
      Subscriptions.post, Subscriptions.put, Subscriptions.del, hbc]
  · intro hbc hv
    simp [Entities.get, Entities.post, Entities.put, Entities.del, Entities.delAlt,
      Services.post, Services.put, Services.del, Services.delAlt,
      Payees.post, Payees.put, Payees.del,
      Subscriptions.post, Subscriptions.put, Subscriptions.del, hbc, hv]
  · intro hl
    simp [EditUser.put, DeleteUser.del, hl]
  · intro hl
    simp [EditUser.put, DeleteUser.del, hl]
  · intro hl ht hv
    simp [EditUser.put, DeleteUser.del, hl, ht, hv]

/-- C1 witness: the amended theorem applied at a concrete malformed header
(absent scheme), discharging its hypothesis. -/
theorem C1_amended_witness :
    bearerCheck (some "Basic tok") = false ∧
    (Entities.get verifyW (some "Basic tok") dbW).status = 401 := by
  refine ⟨by decide, ?_⟩
  exact ((C1_amended verifyW (some "Basic tok") "tok" dbW
    ⟨none, none, none, none⟩ ⟨none, none, none, none, none⟩ ⟨none⟩
    ⟨none, none, none, none, none, none⟩ ⟨none, none, none, none, none, none, none⟩ ⟨none⟩
    ⟨none, none, none, none, none, none, none⟩
    ⟨none, none, none, none, none, none, none, none, none⟩
    ⟨none, none, none, none, none, none, none, none⟩
    ⟨none, none, none, none, none, none, none, none, none, none⟩
    ⟨none, none, none, none, none⟩).1 (by decide)).1

/-! ### C9 -/

/-- C9 counterexample: a DeleteUser request whose Authorization header is
`Basic tok` — it does not start with `Bearer ` — is not rejected as
unauthenticated: the token is verified, the persistence call runs and the
user row is deleted with status 200. -/
theorem C9_counterexample :
    (DeleteUser.del verifyW (some "Basic tok") dbW).status = 200 ∧
    ¬((DeleteUser.del verifyW (some "Basic tok") dbW).status = 401) ∧
    ¬((DeleteUser.del verifyW (some "Basic tok") dbW).db.users = dbW.users) := by
  decide

/-- C9 (amended): the entity/service/payee/subscription handlers do require
the literal `Bearer ` scheme and answer 401 before verification otherwise;
EditUser and DeleteUser only extract the second space-separated word of the
header, answer 401 exactly when that word is missing or empty, and
otherwise proceed to token verification whatever the scheme word was (so
they never answer 401 once a non-empty second word exists). -/
theorem C9_amended (verify : String → Option Claims) (h : Option String) (t : String)
    (db : Db) (b : EditUserBody) :
    (bearerCheck h = false →
      (Entities.get verify h db).status = 401 ∧
      (Payees.put verify h ⟨none, none, none, none, none, none, none, none, none⟩ db).status = 401) ∧
    (looseToken h = none →
      (EditUser.put verify h b db).status = 401 ∧
      (DeleteUser.del verify h db).status = 401) ∧
    (looseToken h = some t → ¬(t = "") →
      ¬((EditUser.put verify h b db).status = 401) ∧
      ¬((DeleteUser.del verify h db).status = 401)) := by
  refine ⟨?_, ?_, ?_⟩
  · intro hbc
    simp [Entities.get, Payees.put, hbc]
  · intro hl
    simp [EditUser.put, DeleteUser.del, hl]
  · intro hl ht
    have ht' : ¬((t == "") = true) := by simp [ht]
    cases hv : verify t with
    | none => simp [EditUser.put, DeleteUser.del, hl, ht, hv]
    | some c =>
      constructor
      · simp only [EditUser.put, hl]
        rw [if_neg ht']
        simp only [hv]
        split
        · simp
        · split <;> simp
      · simp only [DeleteUser.del, hl]
        rw [if_neg ht']
        simp only [hv]
        split <;> simp

/-- C9 witness: the amended theorem applied at the concrete header
`Basic tok`, discharging the hypotheses of its third conjunct. -/
theorem C9_amended_witness :
    looseToken (some "Basic tok") = some "tok" ∧ ¬("tok" = "") ∧
    ¬((DeleteUser.del verifyW (some "Basic tok") dbW).status = 401) := by
  refine ⟨by decide, by decide, ?_⟩
  exact ((C9_amended verifyW (some "Basic tok") "tok" dbW
    ⟨none, none, none, none, none⟩).2.2 (by decide) (by decide)).2

/-! ### C2 -/

/-- Tenancy of the entities GET: every row the response carries belongs to
the authenticated user. -/
theorem entitiesGet_tenancy (verify : String → Option Claims) (h : Option String)
    (c : Claims) (db : Db) (hv : verify (bearerToken h) = some c) :
    ∀ pr ∈ (Entities.get verify h db).rows, pr.1.user_id = c.user_id := by
  intro pr hm
  by_cases hbc : bearerCheck h
  · simp only [Entities.get, hbc, if_true, hv] at hm
    split at hm
    · simp at hm
    · rcases List.mem_filterMap.mp hm with ⟨a, ha, hfa⟩
      rcases List.mem_filter.mp ha with ⟨-, hpred⟩
      rcases Option.map_eq_some'.mp hfa with ⟨u, -, hpr⟩
      rw [← hpr]
      simpa using hpred
  · simp [Entities.get, hbc] at hm

/-- Tenancy of the entities PUT: every row of the resulting entities table
is an untouched input row or belongs to the authenticated user. -/
theorem entitiesPut_tenancy (verify : String → Option Claims) (h : Option String)
    (c : Claims) (b : EntityPutBody) (db : Db)
    (hv : verify (bearerToken h) = some c) :
    ∀ e ∈ (Entities.put verify h b db).db.entities,
      e ∈ db.entities ∨ e.user_id = c.user_id := by
  intro e hm
  by_cases hbc : bearerCheck h
  · simp only [Entities.put, hbc, if_true, hv] at hm
    split at hm
    · split at hm
      · exact Or.inl hm
      · split at hm
        · exact Or.inl hm
        · rcases List.mem_map.mp hm with ⟨a, ha, rfl⟩
          by_cases hcond : (a.id == b.id.getD 0 && a.user_id == c.user_id) = true
          · rw [if_pos hcond]
            have hc := hcond
            rw [Bool.and_eq_true] at hc
            exact Or.inr (by simpa using hc.2)
          · rw [if_neg hcond]
            exact Or.inl ha
    · exact Or.inl hm
  · simp only [Entities.put, hbc, if_false, Bool.false_eq_true] at hm
    exact Or.inl hm

/-- Tenancy of the services PUT: every row of the resulting services table
is an untouched input row or belongs to the authenticated user. -/
theorem servicesPut_tenancy (verify : String → Option Claims) (h : Option String)
    (c : Claims) (b : ServicePutBody) (db : Db)
    (hv : verify (bearerToken h) = some c) :
    ∀ s ∈ (Services.put verify h b db).db.services,
      s ∈ db.services ∨ s.user_id = c.user_id := by
  intro s hm
  by_cases hbc : bearerCheck h
  · simp only [Services.put, hbc, if_true, hv] at hm
    split at hm
    · split at hm
      · exact Or.inl hm
      · split at hm
        · exact Or.inl hm
        · rename_i ent hent
          split at hm
          · exact Or.inl hm
          · rcases List.mem_map.mp hm with ⟨a, ha, rfl⟩
            by_cases hcond :
                (a.id == b.id.getD 0 && a.user_id == c.user_id && a.entity_id == ent.id) = true
            · rw [if_pos hcond]
              have hc := hcond
              rw [Bool.and_eq_true, Bool.and_eq_true] at hc
              exact Or.inr (by simpa using hc.1.2)
            · rw [if_neg hcond]
              exact Or.inl ha
    · exact Or.inl hm
  · simp only [Services.put, hbc, if_false, Bool.false_eq_true] at hm
    exact Or.inl hm

/-- Ownership check of the entities DELETE: a 200 answer implies the target
entity row existed and belonged to the authenticated user. -/
theorem entitiesDel_owner (verify : String → Option Claims) (h : Option String)
    (c : Claims) (b : EntityDeleteBody) (db : Db)
    (hv : verify (bearerToken h) = some c) :
    (Entities.del verify h b db).status = 200 →
    ∃ e ∈ db.entities, e.id = b.entity_id.getD 0 ∧ e.user_id = c.user_id := by
  intro h200
  by_cases hbc : bearerCheck h
  · simp only [Entities.del, hbc, if_true, hv] at h200
    split at h200
    · split at h200
      · simp at h200
      · rename_i e0 hfind
        have hc := List.find?_some hfind
        rw [Bool.and_eq_true] at hc
        exact ⟨e0, List.mem_of_find?_eq_some hfind, by simpa using hc.1, by simpa using hc.2⟩
    · simp at h200
  · simp [Entities.del, hbc] at h200

/-- Ownership check of the payees DELETE: a 200 answer implies the target
payee row existed and belonged to the authenticated user. -/
theorem payeesDel_owner (verify : String → Option Claims) (h : Option String)
    (c : Claims) (b : IdBody) (db : Db)
    (hv : verify (bearerToken h) = some c) :
    (Payees.del verify h b db).status = 200 →
    ∃ p ∈ db.payees, p.id = b.id.getD 0 ∧ p.user_id = c.user_id := by
  intro h200
  by_cases hbc : bearerCheck h
  · simp only [Payees.del, hbc, if_true, hv] at h200
    split at h200
    · split at h200
      · simp at h200
      · rename_i p0 hfind
        have hc := List.find?_some hfind
        rw [Bool.and_eq_true] at hc
        exact ⟨p0, List.mem_of_find?_eq_some hfind, by simpa using hc.1, by simpa using hc.2⟩
    · simp at h200
  · simp [Payees.del, hbc] at h200

/-- C2 counterexample: payee 1 of `dbOther` belongs to user 2, yet the
payees PUT issued by authenticated user 7 modifies it (status 200) and in
fact reassigns it to user 7 — an operation touched a row owned by a
different user. -/
theorem C2_counterexample :
    dbOther.payees.map (·.user_id) = [2] ∧
    (Payees.put verifyW hdrW
      ⟨some 1, none, none, none, some "hack", some "p", some "e", some "9", some "x"⟩
      dbOther).status = 200 ∧
    (Payees.put verifyW hdrW
      ⟨some 1, none, none, none, some "hack", some "p", some "e", some "9", some "x"⟩
      dbOther).db.payees.map (·.user_id) = [7] := by
  decide

/-- C2 (amended): the List read returns only rows of the authenticated
user, the entities/services PUT modify only rows of the authenticated
user, and the entities/payees DELETE answer 200 only when the target row
belongs to the authenticated user — but the payees/subscriptions PUT update
whatever row carries the requested id, with no ownership restriction, and
the delete cascades remove dependent rows by foreign key alone. -/
theorem C2_amended (verify : String → Option Claims) (h : Option String)
    (c : Claims) (db : Db) (b2 : EntityPutBody) (b5 : ServicePutBody)
    (b3 : EntityDeleteBody) (b6 : IdBody)
    (hv : verify (bearerToken h) = some c) :
    (∀ pr ∈ (Entities.get verify h db).rows, pr.1.user_id = c.user_id) ∧
    (∀ e ∈ (Entities.put verify h b2 db).db.entities,
      e ∈ db.entities ∨ e.user_id = c.user_id) ∧
    (∀ s ∈ (Services.put verify h b5 db).db.services,
      s ∈ db.services ∨ s.user_id = c.user_id) ∧
    ((Entities.del verify h b3 db).status = 200 →
      ∃ e ∈ db.entities, e.id = b3.entity_id.getD 0 ∧ e.user_id = c.user_id) ∧
    ((Payees.del verify h b6 db).status = 200 →
      ∃ p ∈ db.payees, p.id = b6.id.getD 0 ∧ p.user_id = c.user_id) :=
  ⟨entitiesGet_tenancy verify h c db hv,
   entitiesPut_tenancy verify h c b2 db hv,
   servicesPut_tenancy verify h c b5 db hv,
   entitiesDel_owner verify h c b3 db hv,
   payeesDel_owner verify h c b6 db hv⟩

/-- C2 witness: the amended theorem applied at the concrete fixture,
discharging its verification hypothesis. -/
theorem C2_amended_witness :
    verifyW (bearerToken hdrW) = some ⟨7, 7⟩ ∧
    (∀ pr ∈ (Entities.get verifyW hdrW dbW).rows, pr.1.user_id = 7) := by
  refine ⟨by decide, ?_⟩
  exact (C2_amended verifyW hdrW ⟨7, 7⟩ dbW
    ⟨none, none, none, none, none⟩ ⟨none, none, none, none, none, none, none⟩
    ⟨none⟩ ⟨none⟩ (by decide)).1

/-! ### C3 -/

/-- C3 counterexample: a payees POST whose category is `Banana` — neither
`income` nor `expense` under any casing — is accepted with 201 and the
category is stored verbatim, not lowercased. -/
theorem C3_counterexample :
    (Payees.post verifyW hdrW
      ⟨some "Acme", some "Cloud", some "Carol", some "p", some "e", some "5", some "Banana"⟩
      dbW).status = 201 ∧
    (Payees.post verifyW hdrW
      ⟨some "Acme", some "Cloud", some "Carol", some "p", some "e", some "5", some "Banana"⟩
      dbW).db.payees.map (·.category) = [some "expense", some "Banana"] := by
  decide

/-- C3 (amended): the entities and services Create/Update handlers reject a
supplied category with 400 (store untouched) unless it case-insensitively
equals income or expense, and the rows they insert carry the lowercased
category; the payees and subscriptions handlers accept any category and
store it verbatim. -/
theorem C3_amended (verify : String → Option Claims) (h : Option String)
    (c : Claims) (db : Db) (b1 : EntityPostBody) (b4 : ServicePostBody)
    (b2 : EntityPutBody) (b5 : ServicePutBody)
    (hbc : bearerCheck h = true) (hv : verify (bearerToken h) = some c) :
    (truthyS b1.category = true →
      (jsToLower (b1.category.getD "") == "income" ||
       jsToLower (b1.category.getD "") == "expense") = false →
      Entities.post verify h b1 db = ⟨400, db⟩) ∧
    (∀ e ∈ (Entities.post verify h b1 db).db.entities,
      e ∈ db.entities ∨ e.category = jsToLower (b1.category.getD "")) ∧
    (truthyS b4.category = true →
      (jsToLower (b4.category.getD "") == "income" ||
       jsToLower (b4.category.getD "") == "expense") = false →
      Services.post verify h b4 db = ⟨400, db⟩) ∧
    (∀ s ∈ (Services.post verify h b4 db).db.services,
      s ∈ db.services ∨ s.category = jsToLower (b4.category.getD "")) ∧
    (truthyS b2.category = true →
      (jsToLower (b2.category.getD "") == "income" ||
       jsToLower (b2.category.getD "") == "expense") = false →
      Entities.put verify h b2 db = ⟨400, db⟩) ∧
    (truthyS b5.category = true →
      (jsToLower (b5.category.getD "") == "income" ||
       jsToLower (b5.category.getD "") == "expense") = false →
      Services.put verify h b5 db = ⟨400, db⟩) := by
  refine ⟨?_, ?_, ?_, ?_, ?_, ?_⟩
  · intro hcat hbad
    simp only [Entities.post, hbc, if_true, hv]
    split
    · rw [if_neg (by simp [hbad])]
    · rfl
  · intro e hm
    simp only [Entities.post, hbc, if_true, hv] at hm
    split at hm
    · split at hm
      · rcases List.mem_append.mp hm with ha | hb
        · exact Or.inl ha
        · rw [List.mem_singleton] at hb
          subst hb
          exact Or.inr rfl
      · exact Or.inl hm
    · exact Or.inl hm
  · intro hcat hbad
    simp only [Services.post, hbc, if_true, hv]
    split
    · rw [if_neg (by simp [hbad])]
    · rfl
  · intro s hm
    simp only [Services.post, hbc, if_true, hv] at hm
    split at hm
    · split at hm
      · split at hm
        · exact Or.inl hm
        · rcases List.mem_append.mp hm with ha | hb
          · exact Or.inl ha
          · rw [List.mem_singleton] at hb
            subst hb
            exact Or.inr rfl
      · exact Or.inl hm
    · exact Or.inl hm
  · intro hcat hbad
    simp only [Entities.put, hbc, if_true, hv]
    split
    · rw [if_pos (by simp [hcat, hbad])]
    · rfl
  · intro hcat hbad
    simp only [Services.put, hbc, if_true, hv]
    split
    · rw [if_pos (by simp [hcat, hbad])]
    · rfl

/-- C3 witness: the amended theorem applied at a concrete request carrying
the invalid category `Banana`, discharging every hypothesis. -/
theorem C3_amended_witness :
    bearerCheck hdrW = true ∧ verifyW (bearerToken hdrW) = some ⟨7, 7⟩ ∧
    truthyS (some "Banana") = true ∧
    (jsToLower "Banana" == "income" || jsToLower "Banana" == "expense") = false ∧
    Entities.post verifyW hdrW ⟨some "N", some "d", some "s", some "Banana"⟩ dbW = ⟨400, dbW⟩ := by
  refine ⟨by decide, by decide, by decide, by decide, ?_⟩
  exact (C3_amended verifyW hdrW ⟨7, 7⟩ dbW
    ⟨some "N", some "d", some "s", some "Banana"⟩
    ⟨none, none, none, none, none, none⟩
    ⟨none, none, none, none, none⟩
    ⟨none, none, none, none, none, none, none⟩
    (by decide) (by decide)).1 (by decide) (by decide)

/-! ### C4 -/

/-- C4 counterexample: a payees PUT that omits `entity_name` (all scalar
fields supplied) succeeds with 200 but nulls out the stored `entity_id`
instead of keeping the existing value `some 1`. -/
theorem C4_counterexample :
    dbW.payees.map (·.entity_id) = [some 1] ∧
    (Payees.put verifyW hdrW
      ⟨some 3, none, none, some "Cloud", some "Bob", some "p", some "e", some "5", some "expense"⟩
      dbW).status = 200 ∧
    (Payees.put verifyW hdrW
      ⟨some 3, none, none, some "Cloud", some "Bob", some "p", some "e", some "5", some "expense"⟩
      dbW).db.payees.map (·.entity_id) = [none] := by
  decide

/-- C4 (amended): the entities and services PUT handlers fall back to the
stored values for omitted updatable fields (shown below: an entities update
omitting `category` keeps the stored category, and a services update
omitting every optional field leaves the row unchanged); the payees and
subscriptions PUT handlers instead overwrite every column with the body
value, storing NULL for an omitted name field. -/
theorem C4_amended (verify : String → Option Claims) (h : Option String)
    (c : Claims) (db : Db) (b2 : EntityPutBody) (b5 : ServicePutBody)
    (old : EntityRow) (ent : EntityRow) (olds : ServiceRow)
    (hbc : bearerCheck h = true) (hv : verify (bearerToken h) = some c) :
    ((truthyN b2.id && truthyS b2.entity_name && truthyS b2.entity_desc &&
        truthyS b2.entity_short_desc) = true →
      truthyS b2.category = false →
      db.entities.find? (fun e => e.id == b2.id.getD 0 && e.user_id == c.user_id) = some old →
      (Entities.put verify h b2 db).status = 200 ∧
        ({ old with
            entity_name := b2.entity_name.getD "",
            entity_desc := b2.entity_desc.getD "",
            entity_short_desc := b2.entity_short_desc.getD "" } : EntityRow) ∈
          (Entities.put verify h b2 db).db.entities) ∧
    ((truthyN b5.id && truthyS b5.entity_name) = true →
      truthyS b5.service_name = false → truthyS b5.service_desc = false →
      truthyS b5.min_duration = false → truthyS b5.amount = false →
      truthyS b5.category = false →
      findEntityByName db (b5.entity_name.getD "") = some ent →
      db.services.find? (fun s =>
        s.id == b5.id.getD 0 && s.user_id == c.user_id && s.entity_id == ent.id) = some olds →
      (Services.put verify h b5 db).status = 200 ∧
        olds ∈ (Services.put verify h b5 db).db.services) := by
  constructor
  · intro hreq hcat hfind
    have hcond := List.find?_some hfind
    simp only [Bool.and_eq_true] at hreq
    constructor
    · simp only [Entities.put, hbc, if_true, hv]
      rw [if_pos (by simp [Bool.and_eq_true, hreq]), if_neg (by simp [hcat])]
      simp only [hfind]
    · simp only [Entities.put, hbc, if_true, hv]
      rw [if_pos (by simp [Bool.and_eq_true, hreq]), if_neg (by simp [hcat])]
      simp only [hfind]
      refine List.mem_map.mpr ⟨old, List.mem_of_find?_eq_some hfind, ?_⟩
      rw [if_pos hcond]
      simp [hreq.1.1.2, hreq.1.2, hreq.2, hcat]
  · intro hreq h1 h2 h3 h4 h5 hent hfind
    have hcond := List.find?_some hfind
    constructor
    · simp only [Services.put, hbc, if_true, hv]
      rw [if_pos hreq, if_neg (by simp [h5])]
      simp only [hent, hfind]
    · simp only [Services.put, hbc, if_true, hv]
      rw [if_pos hreq, if_neg (by simp [h5])]
      simp only [hent, hfind]
      refine List.mem_map.mpr ⟨olds, List.mem_of_find?_eq_some hfind, ?_⟩
      rw [if_pos hcond]
      simp [h1, h2, h3, h4, h5]

/-- C4 witness: the amended theorem applied at a concrete entities update
omitting `category`: the stored category `income` survives the update. -/
theorem C4_amended_witness :
    (truthyN (some 1) && truthyS (some "X") && truthyS (some "y") && truthyS (some "z")) = true ∧
    truthyS (none : Option String) = false ∧
    dbW.entities.find? (fun e => e.id == (some 1 : Option Nat).getD 0 && e.user_id == (7 : Nat)) =
      some ⟨1, 7, "Acme", "d", "s", "income"⟩ ∧
    (Entities.put verifyW hdrW ⟨some 1, some "X", some "y", some "z", none⟩ dbW).status = 200 ∧
    (⟨1, 7, "X", "y", "z", "income"⟩ : EntityRow) ∈
      (Entities.put verifyW hdrW ⟨some 1, some "X", some "y", some "z", none⟩ dbW).db.entities := by
  refine ⟨by decide, by decide, by decide, ?_⟩
  exact (C4_amended verifyW hdrW ⟨7, 7⟩ dbW
    ⟨some 1, some "X", some "y", some "z", none⟩
    ⟨none, none, none, none, none, none, none⟩
    ⟨1, 7, "Acme", "d", "s", "income"⟩ ⟨1, 7, "Acme", "d", "s", "income"⟩
    ⟨2, 7, 1, "Cloud", "d", "12", "99", "expense"⟩
    (by decide) (by decide)).1 (by decide) (by decide) (by decide)

/-! ### C5 -/

/-- Mapping a function that fixes every element of a list leaves the list
unchanged (used for UPDATE statements whose WHERE clause matches no row). -/
theorem map_self_of_eq {α : Type} (l : List α) (f : α → α)
    (hf : ∀ a ∈ l, f a = a) : l.map f = l := by
  induction l with
  | nil => rfl
  | cons x xs ih =>
    rw [List.map_cons, hf x (List.mem_cons_self x xs),
      ih (fun a ha => hf a (List.mem_cons_of_mem x ha))]

/-- C5 counterexample: a payees PUT naming an id that matches no row at all
answers 200, not the 404 the claim requires. -/
theorem C5_counterexample :
    (∀ p ∈ dbW.payees, ¬(p.id = 99)) ∧
    (Payees.put verifyW hdrW
      ⟨some 99, none, none, none, some "N", some "p", some "e", some "5", some "x"⟩
      dbW).status = 200 ∧
    ¬((Payees.put verifyW hdrW
      ⟨some 99, none, none, none, some "N", some "p", some "e", some "5", some "x"⟩
      dbW).status = 404) := by
  decide

/-- C5 (amended): the entities and services PUT handlers answer 404 and
leave the store untouched when no row matches the id with the
authenticated owner (for services, also the resolved entity); the payees
and subscriptions PUT handlers answer 200 even when no row carries the
requested id, leaving the store unchanged. -/
theorem C5_amended (verify : String → Option Claims) (h : Option String)
    (c : Claims) (db : Db) (b2 : EntityPutBody) (b5 : ServicePutBody)
    (b8 : PayeePutBody) (b10 : SubscriptionPutBody) (ent : EntityRow)
    (eid sid pid : Option Nat)
    (hbc : bearerCheck h = true) (hv : verify (bearerToken h) = some c) :
    ((truthyN b2.id && truthyS b2.entity_name && truthyS b2.entity_desc &&
        truthyS b2.entity_short_desc) = true →
      (truthyS b2.category &&
        !(jsToLower (b2.category.getD "") == "income" ||
          jsToLower (b2.category.getD "") == "expense")) = false →
      db.entities.find? (fun e => e.id == b2.id.getD 0 && e.user_id == c.user_id) = none →
      Entities.put verify h b2 db = ⟨404, db⟩) ∧
    ((truthyN b5.id && truthyS b5.entity_name) = true →
      (truthyS b5.category &&
        !(jsToLower (b5.category.getD "") == "income" ||
          jsToLower (b5.category.getD "") == "expense")) = false →
      findEntityByName db (b5.entity_name.getD "") = some ent →
      db.services.find? (fun s =>
        s.id == b5.id.getD 0 && s.user_id == c.user_id && s.entity_id == ent.id) = none →
      Services.put verify h b5 db = ⟨404, db⟩) ∧
    (truthyN b8.id = true →
      resolveOptName (fun n => (findEntityByName db n).map (·.id)) b8.entity_name = Except.ok eid →
      resolveOptName (fun n => (findServiceByName db n).map (·.id)) b8.service_name = Except.ok sid →
      (∀ p ∈ db.payees, (p.id == b8.id.getD 0) = false) →
      (Payees.put verify h b8 db).status = 200 ∧ (Payees.put verify h b8 db).db = db) ∧
    (truthyN b10.id = true →
      resolveOptName (fun n => (findEntityByName db n).map (·.id)) b10.entity_name = Except.ok eid →
      resolveOptName (fun n => (findServiceByName db n).map (·.id)) b10.service_name = Except.ok sid →
      resolveOptName (fun n => (findPayeeByName db n).map (·.id)) b10.payee_name = Except.ok pid →
      (∀ s ∈ db.subscriptions, (s.id == b10.id.getD 0) = false) →
      (Subscriptions.put verify h b10 db).status = 200 ∧
        (Subscriptions.put verify h b10 db).db = db) := by
  refine ⟨?_, ?_, ?_, ?_⟩
  · intro hreq hcat hfind
    simp only [Entities.put, hbc, if_true, hv]
    rw [if_pos hreq, if_neg (by simp only [hcat]; decide)]
    simp only [hfind]
  · intro hreq hcat hent hfind
    simp only [Services.put, hbc, if_true, hv]
    rw [if_pos hreq, if_neg (by simp only [hcat]; decide)]
    simp only [hent, hfind]
  · intro hid hre hrs hnone
    simp only [Payees.put, hbc, if_true, hv]
    rw [if_pos hid]
    simp only [hre, hrs, payeeUpdate]
    refine ⟨trivial, ?_⟩
    congr 1
    exact map_self_of_eq _ _ (fun p hp => if_neg (by simp [hnone p hp]))
  · intro hid hre hrs hrp hnone
    simp only [Subscriptions.put, hbc, if_true, hv]
    rw [if_pos hid]
    simp only [hre, hrs, hrp, subscriptionUpdate]
    refine ⟨trivial, ?_⟩
    congr 1
    exact map_self_of_eq _ _ (fun s hs => if_neg (by simp [hnone s hs]))

/-- C5 witness: the amended theorem applied at a concrete entities update
whose id matches no owned row, discharging every hypothesis. -/
theorem C5_amended_witness :
    dbW.entities.find? (fun e => e.id == (some 5 : Option Nat).getD 0 && e.user_id == (7 : Nat)) = none ∧
    Entities.put verifyW hdrW ⟨some 5, some "X", some "y", some "z", none⟩ dbW = ⟨404, dbW⟩ := by
  refine ⟨by decide, ?_⟩
  exact (C5_amended verifyW hdrW ⟨7, 7⟩ dbW
    ⟨some 5, some "X", some "y", some "z", none⟩
    ⟨none, none, none, none, none, none, none⟩
    ⟨none, none, none, none, none, none, none, none, none⟩
    ⟨none, none, none, none, none, none, none, none, none, none⟩
    ⟨1, 7, "Acme", "d", "s", "income"⟩ none none none
    (by decide) (by decide)).1 (by decide) (by decide) (by decide)

/-! ### C6 -/

/-- C6: a successful (200) entities DELETE removes every service, payee and
subscription row referencing the deleted entity id, and — given unique
entity primary keys — the entity row itself, so a subsequent List filtered
to that entity finds nothing.  (The part_003 handler performs the cascade
manually; the part_000 variant delegates it to a database-level
`ON DELETE CASCADE` outside this code.) -/
theorem C6_cascade_delete (verify : String → Option Claims) (h : Option String)
    (c : Claims) (b : EntityDeleteBody) (db : Db)
    (hv : verify (bearerToken h) = some c)
    (hnodup : (db.entities.map (·.id)).Nodup)
    (h200 : (Entities.del verify h b db).status = 200) :
    (∀ s ∈ (Entities.del verify h b db).db.services, ¬(s.entity_id = b.entity_id.getD 0)) ∧
    (∀ p ∈ (Entities.del verify h b db).db.payees, ¬(p.entity_id = some (b.entity_id.getD 0))) ∧
    (∀ s ∈ (Entities.del verify h b db).db.subscriptions, ¬(s.entity_id = some (b.entity_id.getD 0))) ∧
    (∀ e ∈ (Entities.del verify h b db).db.entities, ¬(e.id = b.entity_id.getD 0)) := by
  by_cases hbc : bearerCheck h
  · simp only [Entities.del, hbc, if_true, hv] at h200 ⊢
    by_cases hid : truthyN b.entity_id = true
    · rw [if_pos hid] at h200 ⊢
      cases hfind : db.entities.find? (fun e => e.id == b.entity_id.getD 0 && e.user_id == c.user_id) with
      | none =>
        rw [hfind] at h200
        simp at h200
      | some e0 =>
        simp only [hfind] at h200 ⊢
        have he0 := List.find?_some hfind
        rw [Bool.and_eq_true] at he0
        have he0mem := List.mem_of_find?_eq_some hfind
        refine ⟨?_, ?_, ?_, ?_⟩
        · intro s hm
          simpa using List.of_mem_filter hm
        · intro p hm
          simpa using List.of_mem_filter hm
        · intro s hm
          simpa using List.of_mem_filter hm
        · intro e hm heid
          have hmem := List.mem_of_mem_filter hm
          have hpred := List.of_mem_filter hm
          have hee0 : e = e0 := by
            refine List.inj_on_of_nodup_map hnodup hmem he0mem ?_
            have he0id : e0.id = b.entity_id.getD 0 := by simpa using he0.1
            rw [heid, he0id]
          subst hee0
          rw [he0.1, he0.2] at hpred
          simp at hpred
    · rw [if_neg hid] at h200
      simp at h200
  · simp [Entities.del, hbc] at h200

/-- C6 witness: the theorem applied at the concrete fixture `dbW`: deleting
entity 1 owned by user 7 clears its service, payee and subscription. -/
theorem C6_cascade_delete_witness :
    verifyW (bearerToken hdrW) = some ⟨7, 7⟩ ∧
    (dbW.entities.map (·.id)).Nodup ∧
    (Entities.del verifyW hdrW ⟨some 1⟩ dbW).status = 200 ∧
    ((∀ s ∈ (Entities.del verifyW hdrW ⟨some 1⟩ dbW).db.services, ¬(s.entity_id = 1)) ∧
     (∀ p ∈ (Entities.del verifyW hdrW ⟨some 1⟩ dbW).db.payees, ¬(p.entity_id = some 1)) ∧
     (∀ s ∈ (Entities.del verifyW hdrW ⟨some 1⟩ dbW).db.subscriptions, ¬(s.entity_id = some 1)) ∧
     (∀ e ∈ (Entities.del verifyW hdrW ⟨some 1⟩ dbW).db.entities, ¬(e.id = 1))) := by
  refine ⟨by decide, by decide, by decide, ?_⟩
  exact C6_cascade_delete verifyW hdrW ⟨7, 7⟩ ⟨some 1⟩ dbW
    (by decide) (by decide) (by decide)

/-! ### C7 -/

/-- C7: a Create or Update that supplies an entity/service/payee name
resolving to zero rows answers 404 and leaves the store untouched, across
the services POST/PUT, payees POST/PUT and subscriptions POST/PUT handlers
(for the PUT handlers an absent name is simply left unresolved, so the
hypothesis requires the supplied — truthy — name to be unresolvable). -/
theorem C7_name_resolution (verify : String → Option Claims) (h : Option String)
    (c : Claims) (db : Db) (b4 : ServicePostBody) (b5 : ServicePutBody)
    (b7 : PayeePostBody) (b8 : PayeePutBody) (b9 : SubscriptionPostBody)
    (b10 : SubscriptionPutBody)
    (hbc : bearerCheck h = true) (hv : verify (bearerToken h) = some c) :
    ((truthyS b4.service_name && truthyS b4.service_desc && truthyS b4.min_duration &&
        truthyS b4.amount && truthyS b4.category && truthyS b4.entity_name) = true →
      (jsToLower (b4.category.getD "") == "income" ||
       jsToLower (b4.category.getD "") == "expense") = true →
      findEntityByName db (b4.entity_name.getD "") = none →
      Services.post verify h b4 db = ⟨404, db⟩) ∧
    ((truthyN b5.id && truthyS b5.entity_name) = true →
      (truthyS b5.category &&
        !(jsToLower (b5.category.getD "") == "income" ||
          jsToLower (b5.category.getD "") == "expense")) = false →
      findEntityByName db (b5.entity_name.getD "") = none →
      Services.put verify h b5 db = ⟨404, db⟩) ∧
    ((truthyS b7.entity_name && truthyS b7.service_name && truthyS b7.payee_name &&
        truthyS b7.phone && truthyS b7.email && truthyS b7.amount &&
        truthyS b7.category) = true →
      (findEntityByName db (b7.entity_name.getD "") = none ∨
       findServiceByName db (b7.service_name.getD "") = none) →
      Payees.post verify h b7 db = ⟨404, db⟩) ∧
    (truthyN b8.id = true →
      ((truthyS b8.entity_name = true ∧ findEntityByName db (b8.entity_name.getD "") = none) ∨
       (truthyS b8.service_name = true ∧ findServiceByName db (b8.service_name.getD "") = none)) →
      Payees.put verify h b8 db = ⟨404, db⟩) ∧
    ((truthyS b9.entity_name && truthyS b9.service_name && truthyS b9.payee_name &&
        truthyS b9.startDate && truthyS b9.endDate && truthyS b9.amount &&
        truthyS b9.paymentDate && truthyS b9.category) = true →
      (findEntityByName db (b9.entity_name.getD "") = none ∨
       findServiceByName db (b9.service_name.getD "") = none ∨
       findPayeeByName db (b9.payee_name.getD "") = none) →
      Subscriptions.post verify h b9 db = ⟨404, db⟩) ∧
    (truthyN b10.id = true →
      ((truthyS b10.entity_name = true ∧ findEntityByName db (b10.entity_name.getD "") = none) ∨
       (truthyS b10.service_name = true ∧ findServiceByName db (b10.service_name.getD "") = none) ∨
       (truthyS b10.payee_name = true ∧ findPayeeByName db (b10.payee_name.getD "") = none)) →
      Subscriptions.put verify h b10 db = ⟨404, db⟩) := by
  refine ⟨?_, ?_, ?_, ?_, ?_, ?_⟩
  · intro hreq hcat hfind
    simp only [Services.post, hbc, if_true, hv]
    rw [if_pos hreq, if_pos hcat]
    simp only [hfind]
  · intro hreq hcat hfind
    simp only [Services.put, hbc, if_true, hv]
    rw [if_pos hreq, if_neg (by simp only [hcat]; decide)]
    simp only [hfind]
  · intro hreq hdis
    simp only [Payees.post, hbc, if_true, hv]
    rw [if_pos hreq]
    rcases hdis with he | hs
    · cases hfs : findServiceByName db (b7.service_name.getD "") <;> simp only [he, hfs]
    · cases hfe : findEntityByName db (b7.entity_name.getD "") <;> simp only [hfe, hs]
  · intro hid hdis
    simp only [Payees.put, hbc, if_true, hv]
    rw [if_pos hid]
    rcases hdis with ⟨htr, hnone⟩ | ⟨htr, hnone⟩
    · have hre : resolveOptName (fun n => (findEntityByName db n).map (·.id)) b8.entity_name =
          Except.error () := by
        simp [resolveOptName, htr, hnone]
      simp only [hre]
    · cases hre : resolveOptName (fun n => (findEntityByName db n).map (·.id)) b8.entity_name with
      | error u =>
        simp only [hre]
      | ok eid =>
        have hrs : resolveOptName (fun n => (findServiceByName db n).map (·.id)) b8.service_name =
            Except.error () := by
          simp [resolveOptName, htr, hnone]
        simp only [hre, hrs]
  · intro hreq hdis
    simp only [Subscriptions.post, hbc, if_true, hv]
    rw [if_pos hreq]
    rcases hdis with he | hs | hp
    · cases hfs : findServiceByName db (b9.service_name.getD "") <;>
        cases hfp : findPayeeByName db (b9.payee_name.getD "") <;>
        simp only [he, hfs, hfp]
    · cases hfe : findEntityByName db (b9.entity_name.getD "") <;>
        cases hfp : findPayeeByName db (b9.payee_name.getD "") <;>
        simp only [hfe, hs, hfp]
    · cases hfe : findEntityByName db (b9.entity_name.getD "") <;>
        cases hfs : findServiceByName db (b9.service_name.getD "") <;>
        simp only [hfe, hfs, hp]
  · intro hid hdis
    simp only [Subscriptions.put, hbc, if_true, hv]
    rw [if_pos hid]
    rcases hdis with ⟨htr, hnone⟩ | ⟨htr, hnone⟩ | ⟨htr, hnone⟩
    · have hre : resolveOptName (fun n => (findEntityByName db n).map (·.id)) b10.entity_name =
          Except.error () := by
        simp [resolveOptName, htr, hnone]
      simp only [hre]
    · cases hre : resolveOptName (fun n => (findEntityByName db n).map (·.id)) b10.entity_name with
      | error u => simp only [hre]
      | ok eid =>
        have hrs : resolveOptName (fun n => (findServiceByName db n).map (·.id)) b10.service_name =
            Except.error () := by
          simp [resolveOptName, htr, hnone]
        simp only [hre, hrs]
    · cases hre : resolveOptName (fun n => (findEntityByName db n).map (·.id)) b10.entity_name with
      | error u => simp only [hre]
      | ok eid =>
        cases hrs : resolveOptName (fun n => (findServiceByName db n).map (·.id)) b10.service_name with
        | error u => simp only [hre, hrs]
        | ok sid =>
          have hrp : resolveOptName (fun n => (findPayeeByName db n).map (·.id)) b10.payee_name =
              Except.error () := by
            simp [resolveOptName, htr, hnone]
          simp only [hre, hrs, hrp]

/-- C7 witness: the theorem applied at a concrete services POST naming the
absent entity `Ghost`, discharging every hypothesis. -/
theorem C7_name_resolution_witness :
    findEntityByName dbW "Ghost" = none ∧
    Services.post verifyW hdrW
      ⟨some "S", some "d", some "Ghost", some "1", some "2", some "income"⟩ dbW = ⟨404, dbW⟩ := by
  refine ⟨by decide, ?_⟩
  exact (C7_name_resolution verifyW hdrW ⟨7, 7⟩ dbW
    ⟨some "S", some "d", some "Ghost", some "1", some "2", some "income"⟩
    ⟨none, none, none, none, none, none, none⟩
    ⟨none, none, none, none, none, none, none⟩
    ⟨none, none, none, none, none, none, none, none, none⟩
    ⟨none, none, none, none, none, none, none, none⟩
    ⟨none, none, none, none, none, none, none, none, none, none⟩
    (by decide) (by decide)).1 (by decide) (by decide) (by decide)

/-! ### C8 -/

/-- C8: every Create/Update handler whose required-field check fails (some
field of its required list is absent or falsy) answers 400 and leaves the
store untouched.  The required lists are exactly the source's: all four
fields for the entities POST, id plus the three text fields for the
entities PUT, the six fields of the services POST, id and entity_name for
the services PUT, the seven fields of the payees POST, the eight fields of
the subscriptions POST, and just id for the payees/subscriptions PUT. -/
theorem C8_required_fields (verify : String → Option Claims) (h : Option String)
    (c : Claims) (db : Db) (b1 : EntityPostBody) (b2 : EntityPutBody)
    (b4 : ServicePostBody) (b5 : ServicePutBody) (b7 : PayeePostBody)
    (b8 : PayeePutBody) (b9 : SubscriptionPostBody) (b10 : SubscriptionPutBody)
    (hbc : bearerCheck h = true) (hv : verify (bearerToken h) = some c) :
    ((truthyS b1.entity_name && truthyS b1.entity_desc &&
        truthyS b1.entity_short_desc && truthyS b1.category) = false →
      Entities.post verify h b1 db = ⟨400, db⟩) ∧
    ((truthyN b2.id && truthyS b2.entity_name && truthyS b2.entity_desc &&
        truthyS b2.entity_short_desc) = false →
      Entities.put verify h b2 db = ⟨400, db⟩) ∧
    ((truthyS b4.service_name && truthyS b4.service_desc && truthyS b4.min_duration &&
        truthyS b4.amount && truthyS b4.category && truthyS b4.entity_name) = false →
      Services.post verify h b4 db = ⟨400, db⟩) ∧
    ((truthyN b5.id && truthyS b5.entity_name) = false →
      Services.put verify h b5 db = ⟨400, db⟩) ∧
    ((truthyS b7.entity_name && truthyS b7.service_name && truthyS b7.payee_name &&
        truthyS b7.phone && truthyS b7.email && truthyS b7.amount &&
        truthyS b7.category) = false →
      Payees.post verify h b7 db = ⟨400, db⟩) ∧
    (truthyN b8.id = false →
      Payees.put verify h b8 db = ⟨400, db⟩) ∧
    ((truthyS b9.entity_name && truthyS b9.service_name && truthyS b9.payee_name &&
        truthyS b9.startDate && truthyS b9.endDate && truthyS b9.amount &&
        truthyS b9.paymentDate && truthyS b9.category) = false →
      Subscriptions.post verify h b9 db = ⟨400, db⟩) ∧
    (truthyN b10.id = false →
      Subscriptions.put verify h b10 db = ⟨400, db⟩) := by
  refine ⟨?_, ?_, ?_, ?_, ?_, ?_, ?_, ?_⟩
  · intro hreq
    simp only [Entities.post, hbc, if_true, hv]
    rw [if_neg (by simp only [hreq]; decide)]
  · intro hreq
    simp only [Entities.put, hbc, if_true, hv]
    rw [if_neg (by simp only [hreq]; decide)]
  · intro hreq
    simp only [Services.post, hbc, if_true, hv]
    rw [if_neg (by simp only [hreq]; decide)]
  · intro hreq
    simp only [Services.put, hbc, if_true, hv]
    rw [if_neg (by simp only [hreq]; decide)]
  · intro hreq
    simp only [Payees.post, hbc, if_true, hv]
    rw [if_neg (by simp only [hreq]; decide)]
  · intro hreq
    simp only [Payees.put, hbc, if_true, hv]
    rw [if_neg (by simp only [hreq]; decide)]
  · intro hreq
    simp only [Subscriptions.post, hbc, if_true, hv]
    rw [if_neg (by simp only [hreq]; decide)]
  · intro hreq
    simp only [Subscriptions.put, hbc, if_true, hv]
    rw [if_neg (by simp only [hreq]; decide)]

/-- C8 witness: the theorem applied at a concrete entities POST missing its
`category` field, discharging every hypothesis. -/
theorem C8_required_fields_witness :
    (truthyS (some "N") && truthyS (some "d") && truthyS (some "s") &&
      truthyS (none : Option String)) = false ∧
    Entities.post verifyW hdrW ⟨some "N", some "d", some "s", none⟩ dbW = ⟨400, dbW⟩ := by
  refine ⟨by decide, ?_⟩
  exact (C8_required_fields verifyW hdrW ⟨7, 7⟩ dbW
    ⟨some "N", some "d", some "s", none⟩ ⟨none, none, none, none, none⟩
    ⟨none, none, none, none, none, none⟩ ⟨none, none, none, none, none, none, none⟩
    ⟨none, none, none, none, none, none, none⟩
    ⟨none, none, none, none, none, none, none, none, none⟩
    ⟨none, none, none, none, none, none, none, none⟩
    ⟨none, none, none, none, none, none, none, none, none, none⟩
    (by decide) (by decide)).1 (by decide)

/-! ### C10 -/

/-- C10: on a successful (200) payees or subscriptions PUT, the updated
row's stored `user_id` is the body's `user_id` whenever that field is
truthy, and the token's user id only otherwise.  The `isSome` hypotheses
pin the scalar columns to defined values, matching the SQL driver's
requirement that no bind parameter be undefined. -/
theorem C10_user_id_override (verify : String → Option Claims) (h : Option String)
    (c : Claims) (db : Db) (b8 : PayeePutBody) (b10 : SubscriptionPutBody)
    (hbc : bearerCheck h = true) (hv : verify (bearerToken h) = some c) :
    (truthyN b8.id = true →
      (b8.payee_name.isSome && b8.phone.isSome && b8.email.isSome &&
        b8.amount.isSome && b8.category.isSome) = true →
      (Payees.put verify h b8 db).status = 200 →
      ∀ p ∈ (Payees.put verify h b8 db).db.payees, p.id = b8.id.getD 0 →
        p.user_id = (if truthyN b8.user_id then b8.user_id.getD 0 else c.user_id)) ∧
    (truthyN b10.id = true →
      (b10.startDate.isSome && b10.endDate.isSome && b10.amount.isSome &&
        b10.paymentDate.isSome && b10.category.isSome) = true →
      (Subscriptions.put verify h b10 db).status = 200 →
      ∀ s ∈ (Subscriptions.put verify h b10 db).db.subscriptions, s.id = b10.id.getD 0 →
        s.user_id = (if truthyN b10.user_id then b10.user_id.getD 0 else c.user_id)) := by
  constructor
  · intro hid hdef h200 p hp hpid
    simp only [Payees.put, hbc, if_true, hv] at h200 hp
    rw [if_pos hid] at h200 hp
    cases hre : resolveOptName (fun n => (findEntityByName db n).map (·.id)) b8.entity_name with
    | error u =>
      rw [hre] at h200
      simp at h200
    | ok eid =>
      cases hrs : resolveOptName (fun n => (findServiceByName db n).map (·.id)) b8.service_name with
      | error u =>
        rw [hre, hrs] at h200
        simp at h200
      | ok sid =>
        simp only [hre, hrs, payeeUpdate] at hp
        rcases List.mem_map.mp hp with ⟨a, ha, rfl⟩
        by_cases hcond : (a.id == b8.id.getD 0) = true
        · rw [if_pos hcond]
        · rw [if_neg hcond] at hpid
          exact absurd hpid (by simpa using hcond)
  · intro hid hdef h200 s hs hsid
    simp only [Subscriptions.put, hbc, if_true, hv] at h200 hs
    rw [if_pos hid] at h200 hs
    cases hre : resolveOptName (fun n => (findEntityByName db n).map (·.id)) b10.entity_name with
    | error u =>
      rw [hre] at h200
      simp at h200
    | ok eid =>
      cases hrs : resolveOptName (fun n => (findServiceByName db n).map (·.id)) b10.service_name with
      | error u =>
        rw [hre, hrs] at h200
        simp at h200
      | ok sid =>
        cases hrp : resolveOptName (fun n => (findPayeeByName db n).map (·.id)) b10.payee_name with
        | error u =>
          rw [hre, hrs, hrp] at h200
          simp at h200
        | ok pid =>
          simp only [hre, hrs, hrp, subscriptionUpdate] at hs
          rcases List.mem_map.mp hs with ⟨a, ha, rfl⟩
          by_cases hcond : (a.id == b10.id.getD 0) = true
          · rw [if_pos hcond]
          · rw [if_neg hcond] at hsid
            exact absurd hsid (by simpa using hcond)

/-- C10 witness: the theorem applied at a concrete payees PUT carrying
`user_id: 42` for payee 1 (owned by user 2): the stored owner becomes 42,
not the token's user 7. -/
theorem C10_user_id_override_witness :
    truthyN (some 42) = true ∧
    (Payees.put verifyW hdrW
      ⟨some 1, some 42, none, none, some "N", some "p", some "e", some "5", some "x"⟩
      dbOther).status = 200 ∧
    (∀ p ∈ (Payees.put verifyW hdrW
        ⟨some 1, some 42, none, none, some "N", some "p", some "e", some "5", some "x"⟩
        dbOther).db.payees, p.id = (some 1 : Option Nat).getD 0 →
      p.user_id = (if truthyN (some 42) then (some 42 : Option Nat).getD 0 else (7 : Nat))) := by
  refine ⟨by decide, by decide, ?_⟩
  exact (C10_user_id_override verifyW hdrW ⟨7, 7⟩ dbOther
    ⟨some 1, some 42, none, none, some "N", some "p", some "e", some "5", some "x"⟩
    ⟨none, none, none, none, none, none, none, none, none, none⟩
    (by decide) (by decide)).1 (by decide) (by decide) (by decide)

end Expirio

